/-
Verification of the browser-session lifecycle and rendering pipeline of the
HTML-to-PDF service (app/pdf_service.py, app/main.py, app/models.py),
as a shallow embedding in Lean 4.

The embedding mirrors the Python source:
  * `PdfOptions` embeds the pydantic model `PdfOptions` (app/models.py).
  * `PdfService` embeds the observable state of the `PdfService` class:
    whether `_playwright` / `_browser` are set, `_owns_playwright`,
    `_is_ready`.  `PdfService.init`, `PdfService.start`, `PdfService.stop`
    embed `__init__`, `start`, `stop`; `start` additionally reports how many
    times `chromium.launch` was invoked during the call.
  * `PdfService.generate_pdf` embeds the method of the same name as a
    trace-producing function: renderer-facing operations (context creation,
    page creation, the `page.pdf` call with its keyword arguments, closes)
    are recorded as `Event`s, and the outcome is `Except PyError (List Nat)`
    (the PDF bytes).  Nondeterminism of the environment (which pipeline step
    raises, the measured content geometry, whether the content settles to
    network-idle in time, whether the close calls fail) is an explicit
    `RenderBehavior` oracle, so theorems quantify over every environment.
  * `PdfService.build_pdf_options` embeds `_build_pdf_options`, with Python
    truthiness of `str | None` and `float | None` made explicit.
  * `endpoint_generate_pdf` embeds the error mapping of the `POST /pdf`
    handler in app/main.py (PlaywrightTimeout -> 504, other -> 500).
-/
import Mathlib

/-- Python exception values that can cross the service boundary, by class:
`playwright.async_api.TimeoutError`, `RuntimeError`, and any other
exception, each carrying its message (`str(e)`). -/
inductive PyError
  | playwrightTimeout (msg : String)
  | runtimeError (msg : String)
  | otherError (msg : String)
deriving Repr, DecidableEq

/-- Python `str(e)`: the message carried by the exception. -/
def PyError.message : PyError → String
  | PyError.playwrightTimeout m => m
  | PyError.runtimeError m => m
  | PyError.otherError m => m

/-- The pydantic `PdfOptions` model (app/models.py): defaults as declared
there; margins are `str | None`, scale is a number or `None` (modelled as
`Option ℚ`, which is enough to express the `if options.scale:` truthiness
test exactly). -/
structure PdfOptions where
  format : String := "A4"
  landscape : Bool := false
  print_background : Bool := true
  margin_top : Option String := none
  margin_bottom : Option String := none
  margin_left : Option String := none
  margin_right : Option String := none
  scale : Option ℚ := none
deriving Repr, DecidableEq

/-- Python truthiness of a `str | None` value: `None` and `""` are falsy. -/
def pyTruthyStr : Option String → Bool
  | none => false
  | some s => !(s == "")

/-- Python truthiness of a numeric `float | None` value: `None` and `0`
are falsy. -/
def pyTruthyRat : Option ℚ → Bool
  | none => false
  | some q => !(q == 0)

/-- The `margin` sub-dictionary passed to `page.pdf`: one optional entry
per side (a key absent from the dict is `none`). -/
structure Margin where
  top : Option String := none
  bottom : Option String := none
  left : Option String := none
  right : Option String := none
deriving Repr, DecidableEq

/-- The keyword arguments of a `page.pdf(...)` call.  A keyword that is not
passed at the call site is `none`. -/
structure PdfCallArgs where
  width : Option String := none
  height : Option String := none
  format : Option String := none
  landscape : Option Bool := none
  print_background : Option Bool := none
  margin : Option Margin := none
  scale : Option ℚ := none
deriving Repr, DecidableEq

/-- `PdfService._build_pdf_options` (app/pdf_service.py): translate a
`PdfOptions` model into the `page.pdf` options dictionary.  `format`,
`landscape` and `print_background` always pass through; each margin side is
added only if truthy (`if options.margin_top:` etc.); the `margin` key is
added only if the margin dict is non-empty; `scale` is added only if truthy
(`if options.scale:`). -/
def PdfService.build_pdf_options (o : PdfOptions) : PdfCallArgs :=
  let m : Margin :=
    { top := if pyTruthyStr o.margin_top then o.margin_top else none
      bottom := if pyTruthyStr o.margin_bottom then o.margin_bottom else none
      left := if pyTruthyStr o.margin_left then o.margin_left else none
      right := if pyTruthyStr o.margin_right then o.margin_right else none }
  { format := some o.format
    landscape := some o.landscape
    print_background := some o.print_background
    margin := if m.top.isSome || m.bottom.isSome || m.left.isSome || m.right.isSome
              then some m else none
    scale := if pyTruthyRat o.scale then o.scale else none }

/-- The margin entry for the top side in a directive dictionary: present
only when the `margin` key is present and holds a `top` entry. -/
def marginEntryTop (d : PdfCallArgs) : Option String := d.margin.bind Margin.top

/-- The margin entry for the bottom side in a directive dictionary. -/
def marginEntryBottom (d : PdfCallArgs) : Option String := d.margin.bind Margin.bottom

/-- The margin entry for the left side in a directive dictionary. -/
def marginEntryLeft (d : PdfCallArgs) : Option String := d.margin.bind Margin.left

/-- The margin entry for the right side in a directive dictionary. -/
def marginEntryRight (d : PdfCallArgs) : Option String := d.margin.bind Margin.right

/-- Observable state of a `PdfService` instance: whether `self._playwright`
is set, whether `self._browser` is set, `self._owns_playwright`, and
`self._is_ready`. -/
structure PdfService where
  playwright : Bool
  browser : Bool
  owns_playwright : Bool
  is_ready : Bool
deriving Repr, DecidableEq

/-- `PdfService.__init__(playwright=...)`: `injected` is whether a
Playwright instance was passed in.  `_owns_playwright = playwright is None`
and `_is_ready = playwright is not None`. -/
def PdfService.init (injected : Bool) : PdfService :=
  { playwright := injected
    browser := false
    owns_playwright := !injected
    is_ready := injected }

/-- `PdfService.start`: returns the new state together with the number of
`chromium.launch` calls performed during this invocation.  The guard
`if self._is_ready and not self._playwright: return` is embedded verbatim;
otherwise, if the service owns Playwright, `async_playwright().start()` is
run (setting `_playwright`), and if `_playwright` is set the browser engine
is launched and `_is_ready` is set. -/
def PdfService.start (s : PdfService) : PdfService × Nat :=
  if s.is_ready && !s.playwright then (s, 0)
  else
    let s1 := if s.owns_playwright then { s with playwright := true } else s
    if s1.playwright then ({ s1 with browser := true, is_ready := true }, 1)
    else (s1, 0)

/-- `PdfService.stop`: close the browser if set, stop Playwright if owned
and set, mark not ready. -/
def PdfService.stop (s : PdfService) : PdfService :=
  let s1 := if s.browser then { s with browser := false } else s
  let s2 := if s1.owns_playwright && s1.playwright then { s1 with playwright := false } else s1
  { s2 with is_ready := false }

/-- Measured content bounds (the result of the `page.evaluate` geometry
probe): pixel width and height. -/
structure Geometry where
  width : Nat
  height : Nat
deriving Repr, DecidableEq

/-- The awaited operations inside the `try` block of `generate_pdf`, in
source order (the `page.pdf` call is `pdfCapture`). -/
inductive PipelineStep
  | setViewportLarge
  | setContent
  | evalDims
  | addStyle
  | setViewportFit
  | waitFonts
  | pdfCapture
deriving Repr, DecidableEq

/-- Renderer-facing operations recorded while `generate_pdf` runs:
launching a browser, creating the context and page, the `page.pdf` call
with its keyword arguments, and the successful completion of
`page.close()` / `context.close()`. -/
inductive Event
  | browserLaunch
  | contextNew
  | pageNew
  | pdfCall (args : PdfCallArgs)
  | pageClose
  | contextClose
deriving Repr, DecidableEq

/-- Whether an event is the creation of a context. -/
def Event.isContextNew : Event → Bool
  | Event.contextNew => true
  | _ => false

/-- Whether an event is the creation of a page. -/
def Event.isPageNew : Event → Bool
  | Event.pageNew => true
  | _ => false

/-- Whether an event is a completed `page.close()`. -/
def Event.isPageClose : Event → Bool
  | Event.pageClose => true
  | _ => false

/-- Whether an event is a completed `context.close()`. -/
def Event.isContextClose : Event → Bool
  | Event.contextClose => true
  | _ => false

/-- Environment oracle for one `generate_pdf` invocation: when (if ever)
the page content settles to network-idle (`none` = never), which pipeline
steps raise and with what exception, the measured content geometry, the
bytes `page.pdf` returns on success, and whether `page.close()` /
`context.close()` raise during cleanup. -/
structure RenderBehavior where
  settle : Option Nat
  stepError : PipelineStep → Option PyError
  dims : Geometry
  pdfBytes : List Nat
  pageCloseError : Option PyError
  contextCloseError : Option PyError

/-- Whether content loading fails to settle within `timeoutMs`
milliseconds: it never settles, or settles only after the bound. -/
def settleFailure (timeoutMs : Nat) (settle : Option Nat) : Bool :=
  match settle with
  | none => true
  | some t => timeoutMs < t

/-- Outcome of `page.set_content(html, wait_until="networkidle",
timeout=180000)`: per Playwright's documented contract it raises
`TimeoutError` when the wait condition is not reached within the given
timeout; otherwise it can still fail with whatever error the oracle
assigns to this step. -/
def setContentOutcome (b : RenderBehavior) : Option PyError :=
  if settleFailure 180000 b.settle then
    some (PyError.playwrightTimeout "Timeout 180000ms exceeded.")
  else b.stepError PipelineStep.setContent

/-- The keyword arguments of the `page.pdf` call in `generate_pdf`:
explicit pixel width/height from the measured geometry
(`width=f"{page_width}px"` etc.), `print_background=True`, and all four
margins `"0"`.  No `format`, `landscape` or `scale` keyword is passed. -/
def pdfCaptureArgs (g : Geometry) : PdfCallArgs :=
  { width := some (toString g.width ++ "px")
    height := some (toString g.height ++ "px")
    print_background := some true
    margin := some { top := some "0", bottom := some "0", left := some "0", right := some "0" } }

/-- The `try` block of `generate_pdf`: run the pipeline steps in source
order, stopping at the first exception.  The `page.pdf` call is recorded
as an event (the call is issued even when it then raises). -/
def tryBody (b : RenderBehavior) : List Event × Except PyError (List Nat) :=
  match b.stepError PipelineStep.setViewportLarge with
  | some e => ([], Except.error e)
  | none =>
  match setContentOutcome b with
  | some e => ([], Except.error e)
  | none =>
  match b.stepError PipelineStep.evalDims with
  | some e => ([], Except.error e)
  | none =>
  match b.stepError PipelineStep.addStyle with
  | some e => ([], Except.error e)
  | none =>
  match b.stepError PipelineStep.setViewportFit with
  | some e => ([], Except.error e)
  | none =>
  match b.stepError PipelineStep.waitFonts with
  | some e => ([], Except.error e)
  | none =>
  match b.stepError PipelineStep.pdfCapture with
  | some e => ([Event.pdfCall (pdfCaptureArgs b.dims)], Except.error e)
  | none => ([Event.pdfCall (pdfCaptureArgs b.dims)], Except.ok b.pdfBytes)

/-- `PdfService.generate_pdf` (app/pdf_service.py) as a trace-producing
function.  Mirrors the source: raise `RuntimeError` if not ready; default
`options` to `PdfOptions()` (the options value is then only logged, never
used); pick the browser (`self._browser`, else launch one from
`self._playwright`, else raise); create a context and a page; run the
`try` block; then the `finally` block closes the page and then the
context — per Python semantics, an exception raised by `page.close()`
skips `context.close()` and replaces any in-flight exception, and an
exception raised by `context.close()` replaces any in-flight exception. -/
def PdfService.generate_pdf (st : PdfService) (html : String)
    (options : Option PdfOptions) (b : RenderBehavior) :
    List Event × Except PyError (List Nat) :=
  if st.is_ready = false then
    ([], Except.error (PyError.runtimeError "PDF service is not started or not ready"))
  else
    let _opts : PdfOptions := options.getD {}
    let _html := html
    if st.browser || st.playwright then
      let launchEvs : List Event := if st.browser then [] else [Event.browserLaunch]
      let t := tryBody b
      let bodyEvs := launchEvs ++ [Event.contextNew, Event.pageNew] ++ t.1
      match b.pageCloseError with
      | some e => (bodyEvs, Except.error e)
      | none =>
        match b.contextCloseError with
        | some e => (bodyEvs ++ [Event.pageClose], Except.error e)
        | none => (bodyEvs ++ [Event.pageClose, Event.contextClose], t.2)
    else ([], Except.error (PyError.runtimeError "No browser available"))

/-- Project an event to the `page.pdf` keyword arguments it carries, if
it is a `page.pdf` call. -/
def eventPdfArgs : Event → Option PdfCallArgs
  | Event.pdfCall a => some a
  | _ => none

/-- All `page.pdf` calls issued in a trace, in order. -/
def pdfCallsOf (l : List Event) : List PdfCallArgs := l.filterMap eventPdfArgs

/-- The HTTP responses the `POST /pdf` handler can produce: a PDF body
with its content type and content disposition, or an `HTTPException` with
a status code and detail string. -/
inductive HttpResponse
  | pdf (body : List Nat) (contentType : String) (contentDisposition : String)
  | httpError (status : Nat) (detail : String)
deriving Repr, DecidableEq

/-- The `POST /pdf` handler (app/main.py): call `generate_pdf`; on
`PlaywrightTimeout` answer 504 with the fixed timeout detail; on any other
exception answer 500 with `"PDF generation failed: " + str(e)`; on success
answer the PDF bytes with `application/pdf` and an inline disposition. -/
def endpoint_generate_pdf (st : PdfService) (html : String)
    (options : Option PdfOptions) (b : RenderBehavior) : HttpResponse :=
  match (PdfService.generate_pdf st html options b).2 with
  | Except.ok bytes =>
      HttpResponse.pdf bytes "application/pdf" "inline; filename=document.pdf"
  | Except.error (PyError.playwrightTimeout _) =>
      HttpResponse.httpError 504 "PDF generation timed out - HTML too large or complex"
  | Except.error e =>
      HttpResponse.httpError 500 ("PDF generation failed: " ++ e.message)

/-- Whether `pat` is a prefix of `cs`, character by character. -/
def charsPre : List Char → List Char → Bool
  | [], _ => true
  | _ :: _, [] => false
  | a :: as, b :: bs => a == b && charsPre as bs

/-- Whether `pat` occurs as a contiguous run inside `cs`. -/
def charsSub (pat : List Char) : List Char → Bool
  | [] => pat.isEmpty
  | c :: t => charsPre pat (c :: t) || charsSub pat t

/-- Whether `needle` occurs as a substring of `hay`. -/
def strContains (hay needle : String) : Bool := charsSub needle.data hay.data

/-- A started service that owns its Playwright instance: the state reached
by `PdfService(); await service.start()`. -/
def readyOwned : PdfService :=
  { playwright := true, browser := true, owns_playwright := true, is_ready := true }

/-- A never-started service: the state produced by `PdfService()`. -/
def notStartedService : PdfService := PdfService.init false

/-- The sample HTML document used by the repository's test fixtures. -/
def sampleHtml : String :=
  "<html><body><h1>Test Document</h1><p>This is a test.</p></body></html>"

/-- `PdfOptions(format="Letter", landscape=True)`. -/
def letterOptions : PdfOptions := { format := "Letter", landscape := true }

/-- A fault-free environment: content settles immediately, no step raises,
content measures 800x600, `page.pdf` returns the bytes of `%PDF`, and both
close calls succeed. -/
def okBeh : RenderBehavior :=
  { settle := some 0
    stepError := fun _ => none
    dims := { width := 800, height := 600 }
    pdfBytes := [37, 80, 68, 70]
    pageCloseError := none
    contextCloseError := none }

/-- An environment in which `page.set_content` raises a non-timeout
exception with message "boom"; everything else succeeds. -/
def boomBeh : RenderBehavior :=
  { okBeh with
    stepError := fun s =>
      if s = PipelineStep.setContent then some (PyError.otherError "boom") else none }

/-- Like `boomBeh`, but `page.close()` also raises during cleanup. -/
def closeFailBeh : RenderBehavior :=
  { boomBeh with pageCloseError := some (PyError.runtimeError "page close failed") }

/-- An environment in which the content never settles to network-idle, so
`page.set_content` times out; everything else succeeds. -/
def timeoutBeh : RenderBehavior := { okBeh with settle := none }

/-- The trace of the `try` block is either empty (a step before the
`page.pdf` call raised) or the single `page.pdf` call with the
measured-geometry arguments. -/
theorem tryBody_events (b : RenderBehavior) :
    (tryBody b).1 = [] ∨ (tryBody b).1 = [Event.pdfCall (pdfCaptureArgs b.dims)] := by
  unfold tryBody
  repeat' split
  all_goals simp

/-- If the `try` block succeeds, its trace is exactly the `page.pdf` call
with the measured-geometry arguments. -/
theorem tryBody_ok (b : RenderBehavior) (bytes : List Nat)
    (h : (tryBody b).2 = Except.ok bytes) :
    (tryBody b).1 = [Event.pdfCall (pdfCaptureArgs b.dims)] := by
  unfold tryBody at h ⊢
  repeat' split at h
  all_goals simp_all

/-- When the service is ready, a browser is reachable and neither close
call fails, `generate_pdf` runs the `try` block between session creation
and the page-then-context closes, and returns the `try` block's outcome. -/
theorem generate_pdf_clean (st : PdfService) (html : String)
    (options : Option PdfOptions) (b : RenderBehavior)
    (hr : st.is_ready = true) (hav : (st.browser || st.playwright) = true)
    (hpc : b.pageCloseError = none) (hcc : b.contextCloseError = none) :
    PdfService.generate_pdf st html options b =
      ((if st.browser then [] else [Event.browserLaunch]) ++
         [Event.contextNew, Event.pageNew] ++ (tryBody b).1 ++
         [Event.pageClose, Event.contextClose],
       (tryBody b).2) := by
  unfold PdfService.generate_pdf
  rw [hr, hav, hpc, hcc]
  simp

/-- A successful `generate_pdf` run implies the service was ready, a
browser was reachable, neither close call failed, and the `try` block
succeeded with the same bytes. -/
theorem generate_pdf_ok_inv (st : PdfService) (html : String)
    (options : Option PdfOptions) (b : RenderBehavior) (bytes : List Nat)
    (h : (PdfService.generate_pdf st html options b).2 = Except.ok bytes) :
    st.is_ready = true ∧ (st.browser || st.playwright) = true ∧
    b.pageCloseError = none ∧ b.contextCloseError = none ∧
    (tryBody b).2 = Except.ok bytes := by
  unfold PdfService.generate_pdf at h
  by_cases hr : st.is_ready = false
  · rw [if_pos hr] at h
    simp at h
  · rw [if_neg hr] at h
    by_cases hav : (st.browser || st.playwright) = true
    · simp only [hav, if_true] at h
      cases hpc : b.pageCloseError with
      | some e => rw [hpc] at h; simp at h
      | none =>
        rw [hpc] at h
        cases hcc : b.contextCloseError with
        | some e => rw [hcc] at h; simp at h
        | none =>
          rw [hcc] at h
          simp at h
          exact ⟨by simpa using Bool.of_not_eq_false hr, hav, rfl, rfl, h⟩
    · have hav' : (st.browser || st.playwright) = false := by
        cases hb : (st.browser || st.playwright)
        · rfl
        · exact absurd hb hav
      simp only [hav', Bool.false_eq_true, if_false] at h
      simp at h

/-- The translated top-margin entry is the option value when truthy and
absent otherwise. -/
theorem marginEntryTop_build (o : PdfOptions) :
    marginEntryTop (PdfService.build_pdf_options o) =
      if pyTruthyStr o.margin_top then o.margin_top else none := by
  unfold marginEntryTop PdfService.build_pdf_options
  cases h : pyTruthyStr o.margin_top
  · simp only [h, Bool.false_eq_true, if_false]
    split <;> simp [h]
  · cases hmt : o.margin_top with
    | none => rw [hmt] at h; simp [pyTruthyStr] at h
    | some s => simp [h, hmt]

/-- The translated bottom-margin entry is the option value when truthy and
absent otherwise. -/
theorem marginEntryBottom_build (o : PdfOptions) :
    marginEntryBottom (PdfService.build_pdf_options o) =
      if pyTruthyStr o.margin_bottom then o.margin_bottom else none := by
  unfold marginEntryBottom PdfService.build_pdf_options
  cases h : pyTruthyStr o.margin_bottom
  · simp only [h, Bool.false_eq_true, if_false]
    split <;> simp [h]
  · cases hmt : o.margin_bottom with
    | none => rw [hmt] at h; simp [pyTruthyStr] at h
    | some s => simp [h, hmt]

/-- The translated left-margin entry is the option value when truthy and
absent otherwise. -/
theorem marginEntryLeft_build (o : PdfOptions) :
    marginEntryLeft (PdfService.build_pdf_options o) =
      if pyTruthyStr o.margin_left then o.margin_left else none := by
  unfold marginEntryLeft PdfService.build_pdf_options
  cases h : pyTruthyStr o.margin_left
  · simp only [h, Bool.false_eq_true, if_false]
    split <;> simp [h]
  · cases hmt : o.margin_left with
    | none => rw [hmt] at h; simp [pyTruthyStr] at h
    | some s => simp [h, hmt]

/-- The translated right-margin entry is the option value when truthy and
absent otherwise. -/
theorem marginEntryRight_build (o : PdfOptions) :
    marginEntryRight (PdfService.build_pdf_options o) =
      if pyTruthyStr o.margin_right then o.margin_right else none := by
  unfold marginEntryRight PdfService.build_pdf_options
  cases h : pyTruthyStr o.margin_right
  · simp only [h, Bool.false_eq_true, if_false]
    split <;> simp [h]
  · cases hmt : o.margin_right with
    | none => rw [hmt] at h; simp [pyTruthyStr] at h
    | some s => simp [h, hmt]

/-- The translated scale entry is the option value when truthy and absent
otherwise. -/
theorem scale_build (o : PdfOptions) :
    (PdfService.build_pdf_options o).scale =
      if pyTruthyRat o.scale then o.scale else none := rfl

/-- A truthiness-gated string option equals `some s` exactly when the
option holds `s` and `s` is non-empty. -/
theorem ifTruthyStr_eq_some (mt : Option String) (s : String) :
    ((if pyTruthyStr mt then mt else none) = some s) ↔ (mt = some s ∧ s ≠ "") := by
  cases mt with
  | none => simp [pyTruthyStr]
  | some u =>
    by_cases hu : u = ""
    · subst hu
      simp [pyTruthyStr]
      exact fun h => h.symm
    · simp only [pyTruthyStr, beq_iff_eq]
      rw [if_pos (by simpa using hu)]
      constructor
      · intro h
        rw [Option.some_inj] at h
        exact ⟨by rw [h], by rw [← h]; exact hu⟩
      · intro h
        exact h.1.symm ▸ rfl

/-- A truthiness-gated rational option equals `some q` exactly when the
option holds `q` and `q` is non-zero. -/
theorem ifTruthyRat_eq_some (sc : Option ℚ) (q : ℚ) :
    ((if pyTruthyRat sc then sc else none) = some q) ↔ (sc = some q ∧ q ≠ 0) := by
  cases sc with
  | none => simp [pyTruthyRat]
  | some u =>
    by_cases hu : u = 0
    · subst hu
      simp [pyTruthyRat]
      exact fun h => h.symm
    · simp only [pyTruthyRat, beq_iff_eq]
      rw [if_pos (by simpa using hu)]
      constructor
      · intro h
        rw [Option.some_inj] at h
        exact ⟨by rw [h], by rw [← h]; exact hu⟩
      · intro h
        exact h.1.symm ▸ rfl

/-- C9 (amended): for every `PdfOptions` value, the option-translation
function includes a margin entry for a side exactly when that margin
option is present AND non-empty (a present-but-empty margin string is
omitted, by Python truthiness), with the value passed through verbatim;
and it includes a scale entry exactly when scale is present and non-zero,
with the value passed through verbatim — so no clamping of scale to the
0.1–2 range is performed. -/
theorem build_pdf_options_margin_scale_translation (o : PdfOptions) :
    (∀ s, marginEntryTop (PdfService.build_pdf_options o) = some s ↔
       (o.margin_top = some s ∧ s ≠ "")) ∧
    (∀ s, marginEntryBottom (PdfService.build_pdf_options o) = some s ↔
       (o.margin_bottom = some s ∧ s ≠ "")) ∧
    (∀ s, marginEntryLeft (PdfService.build_pdf_options o) = some s ↔
       (o.margin_left = some s ∧ s ≠ "")) ∧
    (∀ s, marginEntryRight (PdfService.build_pdf_options o) = some s ↔
       (o.margin_right = some s ∧ s ≠ "")) ∧
    (∀ q, (PdfService.build_pdf_options o).scale = some q ↔
       (o.scale = some q ∧ q ≠ 0)) := by
  refine ⟨fun s => ?_, fun s => ?_, fun s => ?_, fun s => ?_, fun q => ?_⟩
  · rw [marginEntryTop_build]; exact ifTruthyStr_eq_some o.margin_top s
  · rw [marginEntryBottom_build]; exact ifTruthyStr_eq_some o.margin_bottom s
  · rw [marginEntryLeft_build]; exact ifTruthyStr_eq_some o.margin_left s
  · rw [marginEntryRight_build]; exact ifTruthyStr_eq_some o.margin_right s
  · rw [scale_build]; exact ifTruthyRat_eq_some o.scale q

/-- C9 (counterexample): a `PdfOptions` value whose top margin is present
but empty (`margin_top = ""`) produces a directive with NO top-margin
entry, refuting "contains a margin entry for a given side if and only if
that margin option is present". -/
theorem margin_present_but_entry_omitted :
    ({ margin_top := some "" } : PdfOptions).margin_top = some "" ∧
    marginEntryTop (PdfService.build_pdf_options { margin_top := some "" }) = none := by
  decide

/-- C10: `generate_pdf` issues identical renderer directives and produces
the identical outcome for any two options arguments (including `None`):
in the source, `options` is defaulted and logged but never influences the
browser selection, the session, any pipeline step, or the `page.pdf`
arguments. -/
theorem generate_pdf_independent_of_options (st : PdfService) (html : String)
    (b : RenderBehavior) (o1 o2 : Option PdfOptions) :
    PdfService.generate_pdf st html o1 b = PdfService.generate_pdf st html o2 b := rfl

/-- C4: the repository's own intent (the "PDF service already started"
warning branch and the docstring) is that a second `start()` no-ops, but
the guard `if self._is_ready and not self._playwright` is unsatisfiable
after a successful start (which leaves `_playwright` set), so a second
`start()` on a default-constructed, already-started service launches the
engine AGAIN: both consecutive calls perform one `chromium.launch` each,
two launches in total instead of the claimed one. -/
theorem start_twice_double_launch :
    (PdfService.start (PdfService.init false)).2 = 1 ∧
    (PdfService.start (PdfService.start (PdfService.init false)).1).1.is_ready = true ∧
    (PdfService.start (PdfService.start (PdfService.init false)).1).2 = 1 := by
  decide

/-- C5 (counterexample): a service freshly constructed WITH an injected
Playwright instance (`PdfService(playwright=mock)`, as the repository's
unit tests do) has `is_ready = true` before `start()` is ever called,
refuting "for every freshly constructed service, is_ready is false before
start()". -/
theorem injected_service_ready_before_start :
    (PdfService.init true).is_ready = true := by decide

/-- C5 (amended): for the service constructed without an injected engine
(`PdfService()`, the production path), `is_ready` is false before
`start()`, true after `start()` completes successfully, and false again
after `stop()` completes. -/
theorem is_ready_lifecycle_default_service :
    (PdfService.init false).is_ready = false ∧
    ((PdfService.start (PdfService.init false)).1).is_ready = true ∧
    (PdfService.stop (PdfService.start (PdfService.init false)).1).is_ready = false := by
  decide

/-- C2: with options `{format: "Letter", landscape: true}` and a fault-free
environment, the one `page.pdf` call of `generate_pdf` carries NO `format`
and NO `landscape` keyword at all (the options value is never consulted;
`_build_pdf_options` is dead code), although the repository's own test
`test_generate_pdf_applies_options` asserts `format="Letter"` and
`landscape=True` are passed. -/
theorem generate_pdf_drops_format_landscape :
    pdfCallsOf (PdfService.generate_pdf readyOwned sampleHtml (some letterOptions) okBeh).1 =
      [pdfCaptureArgs okBeh.dims] ∧
    (pdfCaptureArgs okBeh.dims).format = none ∧
    (pdfCaptureArgs okBeh.dims).landscape = none := by
  decide

/-- C1: for every service state, HTML string, options value and
environment in which the close operations themselves do not fail (the
claim's scope: normal return or an exception from a pipeline step), the
page and the context created for the request are closed exactly as many
times as they are created before `generate_pdf` returns or propagates,
and when the service is ready with a reachable browser each is created
and closed exactly once — no session outlives the invocation. -/
theorem generate_pdf_session_closed_exactly_once (st : PdfService) (html : String)
    (options : Option PdfOptions) (b : RenderBehavior)
    (hpc : b.pageCloseError = none) (hcc : b.contextCloseError = none) :
    List.countP Event.isPageClose (PdfService.generate_pdf st html options b).1 =
      List.countP Event.isPageNew (PdfService.generate_pdf st html options b).1 ∧
    List.countP Event.isContextClose (PdfService.generate_pdf st html options b).1 =
      List.countP Event.isContextNew (PdfService.generate_pdf st html options b).1 ∧
    (st.is_ready = true → (st.browser || st.playwright) = true →
      List.countP Event.isPageNew (PdfService.generate_pdf st html options b).1 = 1 ∧
      List.countP Event.isContextNew (PdfService.generate_pdf st html options b).1 = 1) := by
  by_cases hr : st.is_ready = true
  · by_cases hav : (st.browser || st.playwright) = true
    · rw [generate_pdf_clean st html options b hr hav hpc hcc]
      rcases tryBody_events b with h | h <;> rw [h] <;> cases hb : st.browser <;>
        simp [List.countP_append, List.countP_cons, Event.isPageClose, Event.isPageNew,
              Event.isContextClose, Event.isContextNew]
    · have hav' : (st.browser || st.playwright) = false := by
        cases hx : (st.browser || st.playwright)
        · rfl
        · exact absurd hx hav
      unfold PdfService.generate_pdf
      rw [if_neg (by simp [hr])]
      simp only [hav', Bool.false_eq_true, if_false]
      simp [List.countP, hav']
      exact ⟨rfl, rfl⟩
  · have hr' : st.is_ready = false := by
      cases hx : st.is_ready
      · rfl
      · exact absurd hx hr
    unfold PdfService.generate_pdf
    rw [if_pos hr']
    simp [List.countP, hr']
    exact ⟨rfl, rfl⟩

/-- C1 (witness): the session-balance property instantiated at a started
service, the sample HTML, no options and the fault-free environment. -/
theorem generate_pdf_session_closed_exactly_once_witness :
    List.countP Event.isPageClose (PdfService.generate_pdf readyOwned sampleHtml none okBeh).1 =
      List.countP Event.isPageNew (PdfService.generate_pdf readyOwned sampleHtml none okBeh).1 ∧
    List.countP Event.isContextClose (PdfService.generate_pdf readyOwned sampleHtml none okBeh).1 =
      List.countP Event.isContextNew (PdfService.generate_pdf readyOwned sampleHtml none okBeh).1 ∧
    (readyOwned.is_ready = true → (readyOwned.browser || readyOwned.playwright) = true →
      List.countP Event.isPageNew (PdfService.generate_pdf readyOwned sampleHtml none okBeh).1 = 1 ∧
      List.countP Event.isContextNew
        (PdfService.generate_pdf readyOwned sampleHtml none okBeh).1 = 1) :=
  generate_pdf_session_closed_exactly_once readyOwned sampleHtml none okBeh rfl rfl

/-- C3 (counterexample): with a rendering step raising "boom" AND
`page.close()` raising during cleanup, the error that propagates out of
`generate_pdf` is the cleanup error — not the original error "boom" —
and `context.close()` never completes: the `finally` block has no
try/except around the closes, so a cleanup failure masks the primary
error, refuting "that failure is logged but does not replace or mask E". -/
theorem cleanup_error_masks_original :
    (PdfService.generate_pdf readyOwned sampleHtml none closeFailBeh).2 =
      Except.error (PyError.runtimeError "page close failed") ∧
    PyError.runtimeError "page close failed" ≠ PyError.otherError "boom" ∧
    List.countP Event.isContextClose
      (PdfService.generate_pdf readyOwned sampleHtml none closeFailBeh).1 = 0 :=
  ⟨rfl, by decide, rfl⟩

/-- C3 (amended): when the rendering steps raise an error E and the close
operations themselves succeed, cleanup runs (page and context are each
closed once) and E — not some other error — propagates to the caller; if
closing the page or the context itself fails during cleanup, the cleanup
error propagates instead of E (and a page-close failure skips the context
close), as witnessed by the counterexample. -/
theorem generate_pdf_error_after_cleanup (st : PdfService) (html : String)
    (options : Option PdfOptions) (b : RenderBehavior) (e : PyError)
    (hr : st.is_ready = true) (hav : (st.browser || st.playwright) = true)
    (hpc : b.pageCloseError = none) (hcc : b.contextCloseError = none)
    (he : (tryBody b).2 = Except.error e) :
    (PdfService.generate_pdf st html options b).2 = Except.error e ∧
    List.countP Event.isPageClose (PdfService.generate_pdf st html options b).1 = 1 ∧
    List.countP Event.isContextClose (PdfService.generate_pdf st html options b).1 = 1 := by
  rw [generate_pdf_clean st html options b hr hav hpc hcc]
  refine ⟨he, ?_, ?_⟩ <;>
    rcases tryBody_events b with h | h <;> rw [h] <;> cases hb : st.browser <;>
      simp [List.countP_append, List.countP_cons, Event.isPageClose, Event.isContextClose]

/-- C3 (witness): the amended propagation property instantiated at a
started service and the environment whose `set_content` raises "boom". -/
theorem generate_pdf_error_after_cleanup_witness :
    (PdfService.generate_pdf readyOwned sampleHtml none boomBeh).2 =
      Except.error (PyError.otherError "boom") ∧
    List.countP Event.isPageClose
      (PdfService.generate_pdf readyOwned sampleHtml none boomBeh).1 = 1 ∧
    List.countP Event.isContextClose
      (PdfService.generate_pdf readyOwned sampleHtml none boomBeh).1 = 1 :=
  generate_pdf_error_after_cleanup readyOwned sampleHtml none boomBeh
    (PyError.otherError "boom") rfl rfl rfl rfl rfl

/-- C6: under a ready service with a reachable browser, a first pipeline
step that does not pre-empt content loading, and cleanup that succeeds:
(1) whenever the content fails to settle within the 180000 ms bound, the
request terminates with the timeout error mapped to HTTP 504 and never
yields a (partial) PDF response; (2) every other pipeline error is
surfaced as the generic 500 failure carrying the underlying cause's
message. -/
theorem endpoint_timeout_distinct (st : PdfService) (html : String)
    (options : Option PdfOptions) (b : RenderBehavior)
    (hr : st.is_ready = true) (hav : (st.browser || st.playwright) = true)
    (hvp : b.stepError PipelineStep.setViewportLarge = none)
    (hpc : b.pageCloseError = none) (hcc : b.contextCloseError = none) :
    (settleFailure 180000 b.settle = true →
      endpoint_generate_pdf st html options b =
        HttpResponse.httpError 504 "PDF generation timed out - HTML too large or complex" ∧
      ∀ body ct cd, endpoint_generate_pdf st html options b ≠ HttpResponse.pdf body ct cd) ∧
    (∀ e, (PdfService.generate_pdf st html options b).2 = Except.error e →
      (∀ m, e ≠ PyError.playwrightTimeout m) →
      endpoint_generate_pdf st html options b =
        HttpResponse.httpError 500 ("PDF generation failed: " ++ e.message)) := by
  constructor
  · intro hset
    have ht : (tryBody b).2 =
        Except.error (PyError.playwrightTimeout "Timeout 180000ms exceeded.") := by
      unfold tryBody
      rw [hvp]
      unfold setContentOutcome
      rw [if_pos hset]
    have hgen : (PdfService.generate_pdf st html options b).2 =
        Except.error (PyError.playwrightTimeout "Timeout 180000ms exceeded.") := by
      rw [generate_pdf_clean st html options b hr hav hpc hcc]
      exact ht
    have h504 : endpoint_generate_pdf st html options b =
        HttpResponse.httpError 504 "PDF generation timed out - HTML too large or complex" := by
      unfold endpoint_generate_pdf
      rw [hgen]
    refine ⟨h504, fun body ct cd hcon => ?_⟩
    rw [h504] at hcon
    exact HttpResponse.noConfusion hcon
  · intro e he hne
    unfold endpoint_generate_pdf
    rw [he]
    cases e with
    | playwrightTimeout m => exact absurd rfl (hne m)
    | runtimeError m => rfl
    | otherError m => rfl

/-- C6 (witness): the 504 half at an environment that never settles, and
the 500 half at an environment whose `set_content` raises "boom". -/
theorem endpoint_timeout_distinct_witness :
    (endpoint_generate_pdf readyOwned sampleHtml none timeoutBeh =
      HttpResponse.httpError 504 "PDF generation timed out - HTML too large or complex") ∧
    (endpoint_generate_pdf readyOwned sampleHtml none boomBeh =
      HttpResponse.httpError 500
        ("PDF generation failed: " ++ (PyError.otherError "boom").message)) :=
  ⟨((endpoint_timeout_distinct readyOwned sampleHtml none timeoutBeh rfl rfl rfl rfl rfl).1
      rfl).1,
   (endpoint_timeout_distinct readyOwned sampleHtml none boomBeh rfl rfl rfl rfl rfl).2
     (PyError.otherError "boom") rfl (fun _ h => PyError.noConfusion h)⟩

/-- C7: for every HTML input, options value and environment, calling
`generate_pdf` while `is_ready` is false raises a `RuntimeError` whose
message contains both "not started" and "not ready", and the trace is
empty — in particular no context and no page is created. -/
theorem generate_pdf_not_ready_raises (st : PdfService) (html : String)
    (options : Option PdfOptions) (b : RenderBehavior) (h : st.is_ready = false) :
    ∃ msg, PdfService.generate_pdf st html options b =
        ([], Except.error (PyError.runtimeError msg)) ∧
      strContains msg "not started" = true ∧ strContains msg "not ready" = true ∧
      List.countP Event.isContextNew (PdfService.generate_pdf st html options b).1 = 0 ∧
      List.countP Event.isPageNew (PdfService.generate_pdf st html options b).1 = 0 := by
  have heq : PdfService.generate_pdf st html options b =
      ([], Except.error (PyError.runtimeError "PDF service is not started or not ready")) := by
    unfold PdfService.generate_pdf
    rw [if_pos h]
  exact ⟨_, heq, by decide, by decide, by rw [heq]; rfl, by rw [heq]; rfl⟩

/-- C7 (witness): the not-ready property instantiated at a
freshly-constructed (never started) service. -/
theorem generate_pdf_not_ready_raises_witness :
    ∃ msg, PdfService.generate_pdf notStartedService sampleHtml none okBeh =
        ([], Except.error (PyError.runtimeError msg)) ∧
      strContains msg "not started" = true ∧ strContains msg "not ready" = true ∧
      List.countP Event.isContextNew
        (PdfService.generate_pdf notStartedService sampleHtml none okBeh).1 = 0 ∧
      List.countP Event.isPageNew
        (PdfService.generate_pdf notStartedService sampleHtml none okBeh).1 = 0 :=
  generate_pdf_not_ready_raises notStartedService sampleHtml none okBeh rfl

/-- C8: every successful render issues exactly one `page.pdf` call, whose
arguments are the measured geometry expressed in pixels (no named paper
format is passed at all, so pixel geometry trivially takes precedence),
with print-background enabled and all four margins "0" regardless of
caller-specified margins. -/
theorem pdf_capture_uses_measured_geometry (st : PdfService) (html : String)
    (options : Option PdfOptions) (b : RenderBehavior) (bytes : List Nat)
    (h : (PdfService.generate_pdf st html options b).2 = Except.ok bytes) :
    pdfCallsOf (PdfService.generate_pdf st html options b).1 = [pdfCaptureArgs b.dims] ∧
    (pdfCaptureArgs b.dims).width = some (toString b.dims.width ++ "px") ∧
    (pdfCaptureArgs b.dims).height = some (toString b.dims.height ++ "px") ∧
    (pdfCaptureArgs b.dims).print_background = some true ∧
    (pdfCaptureArgs b.dims).margin =
      some { top := some "0", bottom := some "0", left := some "0", right := some "0" } ∧
    (pdfCaptureArgs b.dims).format = none ∧
    (pdfCaptureArgs b.dims).landscape = none := by
  obtain ⟨hr, hav, hpc, hcc, ht⟩ := generate_pdf_ok_inv st html options b bytes h
  rw [generate_pdf_clean st html options b hr hav hpc hcc]
  refine ⟨?_, rfl, rfl, rfl, rfl, rfl, rfl⟩
  rw [tryBody_ok b bytes ht]
  cases hb : st.browser <;>
    simp [pdfCallsOf, List.filterMap_append, eventPdfArgs]

/-- C8 (witness): the capture-directive property instantiated at a
started service and the fault-free environment measuring 800x600. -/
theorem pdf_capture_uses_measured_geometry_witness :
    pdfCallsOf (PdfService.generate_pdf readyOwned sampleHtml none okBeh).1 =
      [pdfCaptureArgs okBeh.dims] ∧
    (pdfCaptureArgs okBeh.dims).width = some (toString okBeh.dims.width ++ "px") ∧
    (pdfCaptureArgs okBeh.dims).height = some (toString okBeh.dims.height ++ "px") ∧
    (pdfCaptureArgs okBeh.dims).print_background = some true ∧
    (pdfCaptureArgs okBeh.dims).margin =
      some { top := some "0", bottom := some "0", left := some "0", right := some "0" } ∧
    (pdfCaptureArgs okBeh.dims).format = none ∧
    (pdfCaptureArgs okBeh.dims).landscape = none :=
  pdf_capture_uses_measured_geometry readyOwned sampleHtml none okBeh okBeh.pdfBytes rfl
